/-
Verification of the Cyber Cycles server physics core
(`src/cyber-cycles-db/spacetimedb/src/physics/`): the collision module
(`collision.rs`), the rubber-banding module (`rubber.rs`) and the
configuration module (`config.rs`).

Modelling conventions
=====================
* Rust `f32` values are modelled as exact rationals (`ℚ`) wherever the code
  performs only field arithmetic and comparisons; the handful of places where
  the code calls `sqrt` or `powf` are modelled over `ℝ` with `Real.sqrt` and
  real exponentiation, so those definitions are `noncomputable`.
* `validate_rubber_usage` is the one function whose documented behaviour
  depends on `f32` rounding (its boundary examples), so it is embedded with an
  explicit IEEE-754 single-precision round-to-nearest-even model (`round32`).
* Rust `u32` values are modelled as `ℕ`; `u32` subtraction, whose underflow is
  a run-time error in Rust, is modelled as the checked `u32sub` returning
  `Option ℕ`.
* Rust `Result<(), PhysicsError>` is modelled as `Except PhysicsError Unit`.
* `std::f32::consts::PI` is the `f32` constant `13176795 / 2^22`, which is the
  exact value of that literal.
* Functions taking `&mut` state are modelled by explicit state passing: they
  take the state and return the updated state (the Rust return value is a
  field of that state).
-/
import Mathlib

namespace CyberCycles

/-- Rust `u32` subtraction, checked: underflow is a run-time error in Rust,
modelled by `none`. -/
def u32sub (a b : ℕ) : Option ℕ := if b ≤ a then some (a - b) else none

/-! ### A round-to-nearest-even model of IEEE-754 single precision

Only used for `validate_rubber_usage`, whose spec examples are sensitive to
`f32` rounding.  `ilog2` is a fuel-driven floor-of-log₂ on positive rationals;
the fuel 320 covers the whole `f32` exponent range. -/

/-- Fuel-driven floor of the base-2 logarithm of a positive rational:
repeatedly halves (respectively doubles) until the value lies in `[1, 2)`. -/
def ilog2Aux (fuel : ℕ) (a : ℚ) (e : ℤ) : ℤ :=
  if fuel = 0 then e
  else if 2 ≤ a then ilog2Aux (fuel - 1) (a / 2) (e + 1)
  else if a < 1 then ilog2Aux (fuel - 1) (a * 2) (e - 1)
  else e
termination_by fuel
decreasing_by all_goals omega

/-- Floor of the base-2 logarithm of a positive rational. -/
def ilog2 (a : ℚ) : ℤ := ilog2Aux 320 a 0

/-- Round a rational to the nearest IEEE-754 single-precision value
(24-bit significand, round-to-nearest, ties to even), for values in the
normal range.  The result is returned as the exact rational it denotes. -/
def round32 (q : ℚ) : ℚ :=
  if q = 0 then 0 else
  let a := |q|
  let e := ilog2 a
  let scaled := a * (2 : ℚ) ^ (23 - e)
  let fl := ⌊scaled⌋
  let r := scaled - (fl : ℚ)
  let n : ℤ :=
    if r < 1 / 2 then fl
    else if 1 / 2 < r then fl + 1
    else if fl % 2 = 0 then fl else fl + 1
  (if q < 0 then -1 else 1) * (n : ℚ) * (2 : ℚ) ^ (e - 23)

/-- `f32` addition: exact sum, rounded. -/
def fadd32 (a b : ℚ) : ℚ := round32 (a + b)

/-- `f32` subtraction: exact difference, rounded. -/
def fsub32 (a b : ℚ) : ℚ := round32 (a - b)

/-- `f32::abs` is exact. -/
def fabs32 (a : ℚ) : ℚ := |a|

/-- The `f32` value denoted by a decimal literal in the Rust source. -/
def flit (q : ℚ) : ℚ := round32 q

/-! ### `physics/mod.rs`: the error type -/

/-- `CollisionType` from `collision.rs`: type of collision detected. -/
inductive CollisionType
  /-- Collision with own trail -/
  | SelfTrail
  /-- Collision with another player's trail -/
  | OtherTrail (owner : String)
  /-- Collision with arena wall -/
  | Wall
deriving DecidableEq

/-- `PhysicsError` from `mod.rs`. -/
inductive PhysicsError
  /-- Rubber value mismatch beyond tolerance -/
  | RubberMismatch (client_value server_value tolerance : ℚ)
  /-- Collision detected -/
  | Collision (player_id : String) (collision_type : CollisionType)
  /-- Out of arena bounds -/
  | OutOfBounds (x z arena_size : ℚ)
  /-- Invalid configuration -/
  | InvalidConfig (msg : String)
  /-- Invalid state -/
  | InvalidState (msg : String)
deriving DecidableEq

/-! ### `physics/config.rs` -/

/-- Physics configuration for bike movement. -/
structure PhysicsConfig where
  base_speed : ℚ
  boost_speed : ℚ
  brake_speed : ℚ
  turn_speed : ℚ
  turn_delay : ℚ
  turn_penalty : ℚ
  acceleration : ℚ
  deceleration : ℚ
  min_speed : ℚ
  max_speed : ℚ
deriving DecidableEq

/-- `PhysicsConfig::default()`. -/
def PhysicsConfig.default : PhysicsConfig where
  base_speed := 40.0
  boost_speed := 70.0
  brake_speed := 20.0
  turn_speed := 3.0
  turn_delay := 0.08
  turn_penalty := 0.05
  acceleration := 100.0
  deceleration := 80.0
  min_speed := 5.0
  max_speed := 80.0

/-- `PhysicsConfig::validate`: ordered field checks, first failure wins. -/
def PhysicsConfig.validate (c : PhysicsConfig) : Except PhysicsError Unit :=
  if c.base_speed ≤ 0 then
    .error (.InvalidConfig "base_speed must be positive")
  else if c.boost_speed ≤ c.base_speed then
    .error (.InvalidConfig "boost_speed must be greater than base_speed")
  else if c.brake_speed ≥ c.base_speed then
    .error (.InvalidConfig "brake_speed must be less than base_speed")
  else if c.turn_speed ≤ 0 then
    .error (.InvalidConfig "turn_speed must be positive")
  else if c.turn_delay < 0 then
    .error (.InvalidConfig "turn_delay cannot be negative")
  else if c.turn_penalty < 0 ∨ c.turn_penalty > 1 then
    .error (.InvalidConfig "turn_penalty must be between 0.0 and 1.0")
  else if c.acceleration ≤ 0 then
    .error (.InvalidConfig "acceleration must be positive")
  else if c.deceleration ≤ 0 then
    .error (.InvalidConfig "deceleration must be positive")
  else if c.min_speed < 0 then
    .error (.InvalidConfig "min_speed cannot be negative")
  else if c.max_speed ≤ c.min_speed then
    .error (.InvalidConfig "max_speed must be greater than min_speed")
  else .ok ()

/-- Collision detection configuration. -/
structure CollisionConfig where
  death_radius : ℚ
  bike_collision_dist : ℚ
  trail_collision_dist : ℚ
  wall_collision_dist : ℚ
  slipstream_distance : ℚ
  slipstream_angle : ℚ
deriving DecidableEq

/-- The exact rational value of the `f32` constant `std::f32::consts::PI`. -/
def PI_F32 : ℚ := 13176795 / 4194304

/-- `CollisionConfig::validate`: ordered field checks, first failure wins. -/
def CollisionConfig.validate (c : CollisionConfig) : Except PhysicsError Unit :=
  if c.death_radius ≤ 0 then
    .error (.InvalidConfig "death_radius must be positive")
  else if c.bike_collision_dist ≤ 0 then
    .error (.InvalidConfig "bike_collision_dist must be positive")
  else if c.trail_collision_dist ≤ 0 then
    .error (.InvalidConfig "trail_collision_dist must be positive")
  else if c.wall_collision_dist ≤ 0 then
    .error (.InvalidConfig "wall_collision_dist must be positive")
  else if c.slipstream_distance ≤ 0 then
    .error (.InvalidConfig "slipstream_distance must be positive")
  else if c.slipstream_angle ≤ 0 ∨ c.slipstream_angle > PI_F32 / 2 then
    .error (.InvalidConfig "slipstream_angle must be between 0 and PI/2")
  else .ok ()

/-- Rubber banding configuration. -/
structure RubberConfig where
  base_rubber : ℚ
  server_rubber : ℚ
  rubber_speed : ℚ
  min_distance : ℚ
  malus_duration : ℚ
  malus_factor : ℚ
  decay_rate : ℚ
  max_rubber : ℚ
  min_rubber : ℚ
  effectiveness_threshold : ℚ
deriving DecidableEq

/-- `RubberConfig::validate`: ordered field checks, first failure wins. -/
def RubberConfig.validate (c : RubberConfig) : Except PhysicsError Unit :=
  if c.base_rubber ≤ 0 then
    .error (.InvalidConfig "base_rubber must be positive")
  else if c.server_rubber ≤ 0 then
    .error (.InvalidConfig "server_rubber must be positive")
  else if c.rubber_speed ≤ 0 then
    .error (.InvalidConfig "rubber_speed must be positive")
  else if c.min_distance ≤ 0 then
    .error (.InvalidConfig "min_distance must be positive")
  else if c.malus_duration ≤ 0 then
    .error (.InvalidConfig "malus_duration must be positive")
  else if c.malus_factor < 0 ∨ c.malus_factor > 1 then
    .error (.InvalidConfig "malus_factor must be between 0.0 and 1.0")
  else if c.decay_rate ≤ 0 ∨ c.decay_rate > 1 then
    .error (.InvalidConfig "decay_rate must be between 0.0 and 1.0")
  else if c.max_rubber ≤ c.base_rubber then
    .error (.InvalidConfig "max_rubber must be greater than base_rubber")
  else if c.min_rubber ≤ 0 ∨ c.min_rubber ≥ c.base_rubber then
    .error (.InvalidConfig "min_rubber must be positive and less than base_rubber")
  else if c.effectiveness_threshold < 0 ∨ c.effectiveness_threshold > 1 then
    .error (.InvalidConfig "effectiveness_threshold must be between 0.0 and 1.0")
  else .ok ()

/-- `RubberConfig::calculate_position_bonus`: rubber increase based on race
position.  The Rust body computes `(total_players - position) as f32` with an
unchecked `u32` subtraction, modelled here by `u32sub`. -/
def RubberConfig.calculate_position_bonus (_c : RubberConfig)
    (position total_players : ℕ) : Option ℚ :=
  if total_players = 0 ∨ position = 0 then some 0
  else
    match u32sub total_players position with
    | none => none
    | some d => some ((d : ℚ) / (total_players : ℚ) * 0.1)

/-- Complete physics configuration bundle. -/
structure FullPhysicsConfig where
  physics : PhysicsConfig
  collision : CollisionConfig
  rubber : RubberConfig
deriving DecidableEq

/-- `FullPhysicsConfig::validate`: physics, then collision, then rubber,
short-circuiting on the first failure (the Rust `?` operator). -/
def FullPhysicsConfig.validate (c : FullPhysicsConfig) : Except PhysicsError Unit :=
  match c.physics.validate with
  | .error e => .error e
  | .ok _ =>
    match c.collision.validate with
    | .error e => .error e
    | .ok _ => c.rubber.validate

/-- `FullPhysicsConfig::competitive()`: competitive configuration preset. -/
def FullPhysicsConfig.competitive : FullPhysicsConfig where
  physics :=
    { base_speed := 40.0
      boost_speed := 70.0
      brake_speed := 20.0
      turn_speed := 3.0
      turn_delay := 0.08
      turn_penalty := 0.05
      acceleration := 100.0
      deceleration := 80.0
      min_speed := 5.0
      max_speed := 80.0 }
  collision :=
    { death_radius := 2.0
      bike_collision_dist := 3.0
      trail_collision_dist := 2.5
      wall_collision_dist := 1.0
      slipstream_distance := 5.0
      slipstream_angle := 0.3 }
  rubber :=
    { base_rubber := 1.0
      server_rubber := 3.0
      rubber_speed := 40.0
      min_distance := 0.001
      malus_duration := 0.5
      malus_factor := 0.3
      decay_rate := 0.95
      max_rubber := 5.0
      min_rubber := 0.1
      effectiveness_threshold := 0.5 }

/-- `FullPhysicsConfig::casual()`: casual/easier configuration preset. -/
def FullPhysicsConfig.casual : FullPhysicsConfig where
  physics :=
    { base_speed := 35.0
      boost_speed := 60.0
      brake_speed := 15.0
      turn_speed := 3.5
      turn_delay := 0.1
      turn_penalty := 0.02
      acceleration := 80.0
      deceleration := 60.0
      min_speed := 5.0
      max_speed := 70.0 }
  collision :=
    { death_radius := 2.5
      bike_collision_dist := 4.0
      trail_collision_dist := 3.0
      wall_collision_dist := 1.5
      slipstream_distance := 6.0
      slipstream_angle := 0.4 }
  rubber :=
    { base_rubber := 1.0
      server_rubber := 4.0
      rubber_speed := 50.0
      min_distance := 0.001
      malus_duration := 0.3
      malus_factor := 0.2
      decay_rate := 0.9
      max_rubber := 6.0
      min_rubber := 0.1
      effectiveness_threshold := 0.4 }

/-- The `COLLISION_CONFIG` constant from `collision.rs`. -/
def COLLISION_CONFIG : CollisionConfig where
  death_radius := 2.0
  bike_collision_dist := 3.0
  trail_collision_dist := 2.5
  wall_collision_dist := 1.0
  slipstream_distance := 5.0
  slipstream_angle := 0.3

/-- The `RUBBER_CONFIG` constant from `rubber.rs`. -/
def RUBBER_CONFIG : RubberConfig where
  base_rubber := 1.0
  server_rubber := 3.0
  rubber_speed := 40.0
  min_distance := 0.001
  malus_duration := 0.5
  malus_factor := 0.3
  decay_rate := 0.95
  max_rubber := 5.0
  min_rubber := 0.1
  effectiveness_threshold := 0.5

/-! ### `physics/rubber.rs` -/

/-- State of the rubber banding system for a player.  The three numeric
fields are `ℝ` because `update_rubber` applies `powf`. -/
structure RubberState where
  player_id : String
  rubber : ℝ
  malus : ℝ
  malus_timer : ℝ

/-- Rust `f32::clamp(lo, hi)` for `lo ≤ hi`. -/
noncomputable def fclamp (x lo hi : ℝ) : ℝ := max lo (min x hi)

/-- `update_rubber`: exponential decay of the rubber value, clamping into
`[min_rubber, max_rubber]`, and count-down of the malus timer (malus and
timer are zeroed together when the timer runs out).  The Rust function
mutates `state` and returns the new `rubber`; here the updated state is
returned. -/
noncomputable def update_rubber (state : RubberState) (dt : ℝ)
    (config : Option RubberConfig) : RubberState :=
  let cfg := config.getD RUBBER_CONFIG
  let decay_factor : ℝ := (cfg.decay_rate : ℝ) ^ dt
  let rubber' := fclamp (state.rubber * decay_factor) (cfg.min_rubber : ℝ) (cfg.max_rubber : ℝ)
  if state.malus_timer > 0 then
    if state.malus_timer - dt ≤ 0 then
      { state with rubber := rubber', malus_timer := 0, malus := 0 }
    else
      { state with rubber := rubber', malus_timer := state.malus_timer - dt }
  else
    { state with rubber := rubber' }

/-- `apply_malus`: clamps the factor into `[0,1]`, sets
`malus = rubber * factor * malus_factor` and
`malus_timer = max duration malus_duration` (both from `RUBBER_CONFIG`).
The Rust function returns the new `malus`; here the updated state is
returned. -/
noncomputable def apply_malus (state : RubberState) (duration factor : ℝ) : RubberState :=
  let cfg := RUBBER_CONFIG
  let clamped_factor := fclamp factor 0 1
  { state with
      malus := state.rubber * clamped_factor * (cfg.malus_factor : ℝ)
      malus_timer := max duration (cfg.malus_duration : ℝ) }

/-- `increase_rubber_for_position`: position-based rubber increase.  First
place gets factor `0`, last place factor `1`; the Rust body computes
`(position - 1) / (total_players - 1)` with unchecked `u32` subtractions,
modelled by `u32sub`.  The Rust function returns the new `rubber`; here the
updated state is returned. -/
noncomputable def increase_rubber_for_position (state : RubberState)
    (position total_players : ℕ) : Option RubberState :=
  let cfg := RUBBER_CONFIG
  if total_players = 0 ∨ position = 0 then some state
  else
    let position_factor? : Option ℝ :=
      if position ≥ total_players then some 1
      else
        match u32sub position 1, u32sub total_players 1 with
        | some a, some b => some ((a : ℝ) / (b : ℝ))
        | _, _ => none
    match position_factor? with
    | none => none
    | some position_factor =>
      let increase := position_factor * 0.1
      some { state with
              rubber := fclamp (state.rubber + increase) (cfg.min_rubber : ℝ) (cfg.max_rubber : ℝ) }

/-- The `f32` constant `EPS = 0.01` from `collision.rs`, as the exact value
of that `f32` literal (used by the bit-exact model of
`validate_rubber_usage`). -/
def EPS32 : ℚ := flit 0.01

/-- `validate_rubber_usage`: the anti-cheat tolerance check, embedded with
bit-exact `f32` arithmetic (its documented boundary behaviour depends on
rounding).  Inputs are `f32` values given as the exact rationals they
denote. -/
def validate_rubber_usage (client_rubber server_rubber tolerance : ℚ) :
    Except PhysicsError Unit :=
  let diff := fabs32 (fsub32 client_rubber server_rubber)
  if diff > fadd32 tolerance EPS32 then
    .error (.RubberMismatch client_rubber server_rubber tolerance)
  else
    .ok ()

/-! ### `physics/collision.rs` -/

/-- The `EPS = 0.01` constant from `collision.rs`, in the exact-rational
model of the geometry kernel. -/
def EPS : ℚ := 0.01

/-- A line segment in 2D space (XZ plane). -/
structure Segment where
  start_x : ℚ
  start_z : ℚ
  end_x : ℚ
  end_z : ℚ
deriving DecidableEq

/-- `Segment::from_positions`: segment from a player's previous and current
position. -/
def Segment.from_positions (prev_x prev_z curr_x curr_z : ℚ) : Segment where
  start_x := prev_x
  start_z := prev_z
  end_x := curr_x
  end_z := curr_z

/-- `Segment::start`: the start point as a pair. -/
def Segment.startPoint (s : Segment) : ℚ × ℚ := (s.start_x, s.start_z)

/-- `Segment::end`: the end point as a pair. -/
def Segment.endPoint (s : Segment) : ℚ × ℚ := (s.end_x, s.end_z)

/-- Player state for collision detection. -/
structure PlayerState where
  id : String
  x : ℚ
  z : ℚ
  dir_x : ℚ
  dir_z : ℚ
  alive : Bool

/-- Result of a collision check.  `distance` is `ℝ` because the code stores
square roots in it. -/
structure CollisionResult where
  collided : Bool
  collision_type : Option CollisionType
  distance : ℝ
  segment_index : Option ℕ

/-- The value of the `f32::MAX` sentinel (`(2 - 2⁻²³)·2¹²⁷`). -/
def f32_max : ℚ := 2 ^ 128 - 2 ^ 104

/-- `CollisionResult::default()`: not collided, no type, "infinite"
(`f32::MAX`) distance, no segment index. -/
noncomputable def CollisionResult.default : CollisionResult where
  collided := false
  collision_type := none
  distance := (f32_max : ℝ)
  segment_index := none

/-- `distance_to_segment_squared`: squared distance from a point to a line
segment; a segment of squared length below `EPS²` is treated as the single
point `start`. -/
def distance_to_segment_squared (px pz sx sz ex ez : ℚ) : ℚ :=
  let dx := ex - sx
  let dz := ez - sz
  let segment_len_sq := dx * dx + dz * dz
  if segment_len_sq < EPS * EPS then
    let pdx := px - sx
    let pdz := pz - sz
    pdx * pdx + pdz * pdz
  else
    let t := min (max (((px - sx) * dx + (pz - sz) * dz) / segment_len_sq) 0) 1
    let closest_x := sx + t * dx
    let closest_z := sz + t * dz
    let pdx := px - closest_x
    let pdz := pz - closest_z
    pdx * pdx + pdz * pdz

/-- `distance_to_segment`: the square root of
`distance_to_segment_squared`. -/
noncomputable def distance_to_segment (px pz sx sz ex ez : ℚ) : ℝ :=
  Real.sqrt ((distance_to_segment_squared px pz sx sz ex ez : ℚ) : ℝ)

/-- Squared distance from a point to a `Segment` (the expression the trail
scan computes for each visited segment). -/
def segDistSq (px pz : ℚ) (s : Segment) : ℚ :=
  distance_to_segment_squared px pz s.start_x s.start_z s.end_x s.end_z

/-- The scan loop of `check_trail_collision`: segments are visited in order
with their index; the first segment whose squared distance beats the death
radius returns immediately, otherwise the running minimum distance and its
index are tracked. -/
noncomputable def ctcLoop (px pz death_radius_sq : ℚ) :
    List Segment → ℕ → CollisionResult → CollisionResult
  | [], _, result => result
  | segment :: rest, index, result =>
    let dist_sq := distance_to_segment_squared px pz
      segment.start_x segment.start_z segment.end_x segment.end_z
    if dist_sq < death_radius_sq then
      { result with
          collided := true
          distance := Real.sqrt (dist_sq : ℝ)
          segment_index := some index }
    else
      let dist := Real.sqrt ((dist_sq : ℚ) : ℝ)
      if dist < result.distance then
        ctcLoop px pz death_radius_sq rest (index + 1)
          { result with distance := dist, segment_index := some index }
      else
        ctcLoop px pz death_radius_sq rest (index + 1) result

/-- `check_trail_collision`: returns the default (not-collided) result for a
dead player, otherwise scans the segments in order. -/
noncomputable def check_trail_collision (player : PlayerState)
    (segments : List Segment) (death_radius : ℚ) : CollisionResult :=
  if !player.alive then CollisionResult.default
  else ctcLoop player.x player.z (death_radius * death_radius) segments 0
    CollisionResult.default

/-- `check_trail_collision_with_owner`: wraps `check_trail_collision` and,
when collided, tags the result `SelfTrail` or `OtherTrail(owner)`. -/
noncomputable def check_trail_collision_with_owner (player : PlayerState)
    (trail_owner_id : String) (segments : List Segment) (death_radius : ℚ) :
    CollisionResult :=
  let result := check_trail_collision player segments death_radius
  if result.collided then
    if player.id = trail_owner_id then
      { result with collision_type := some .SelfTrail }
    else
      { result with collision_type := some (.OtherTrail trail_owner_id) }
  else result

/-- `direction`: cross product of three points (positive = left, negative =
right, zero = collinear). -/
def direction (s : Segment) (p : ℚ × ℚ) : ℚ :=
  let dx1 := p.1 - s.start_x
  let dz1 := p.2 - s.start_z
  let dx2 := s.end_x - s.start_x
  let dz2 := s.end_z - s.start_z
  dx1 * dz2 - dz1 * dx2

/-- `on_segment`: whether a point lies inside a segment's bounding box
expanded by `EPS` (the code assumes collinearity was checked first). -/
def on_segment (s : Segment) (p : ℚ × ℚ) : Prop :=
  (min s.start_x s.end_x - EPS ≤ p.1 ∧ p.1 ≤ max s.start_x s.end_x + EPS) ∧
  (min s.start_z s.end_z - EPS ≤ p.2 ∧ p.2 ≤ max s.start_z s.end_z + EPS)

instance (s : Segment) (p : ℚ × ℚ) : Decidable (on_segment s p) := by
  unfold on_segment; infer_instance

/-- `segments_intersect`: cross-product orientation test; an early `return
true` chain is a disjunction. -/
def segments_intersect (s1 s2 : Segment) : Prop :=
  let d1 := direction s2 s1.startPoint
  let d2 := direction s2 s1.endPoint
  let d3 := direction s1 s2.startPoint
  let d4 := direction s1 s2.endPoint
  (((d1 > EPS ∧ d2 < -EPS) ∨ (d1 < -EPS ∧ d2 > EPS)) ∧
    ((d3 > EPS ∧ d4 < -EPS) ∨ (d3 < -EPS ∧ d4 > EPS))) ∨
  (|d1| < EPS ∧ on_segment s2 s1.startPoint) ∨
  (|d2| < EPS ∧ on_segment s2 s1.endPoint) ∨
  (|d3| < EPS ∧ on_segment s1 s2.startPoint) ∨
  (|d4| < EPS ∧ on_segment s1 s2.endPoint)

instance (s1 s2 : Segment) : Decidable (segments_intersect s1 s2) := by
  unfold segments_intersect; infer_instance

/-- The scan loop of `continuous_collision_check`: the first trail segment
intersecting the movement segment returns immediately with a collided
result of type `OtherTrail("")`. -/
noncomputable def cccLoop (movement_segment : Segment) :
    List Segment → ℕ → CollisionResult → CollisionResult
  | [], _, result => result
  | segment :: rest, index, result =>
    if segments_intersect movement_segment segment then
      { result with
          collided := true
          segment_index := some index
          collision_type := some (.OtherTrail "") }
    else cccLoop movement_segment rest (index + 1) result

/-- `continuous_collision_check`: builds the movement segment from previous
to current position and tests it for intersection against every trail
segment in order. -/
noncomputable def continuous_collision_check (prev_x prev_z curr_x curr_z : ℚ)
    (segments : List Segment) : CollisionResult :=
  let movement_segment := Segment.from_positions prev_x prev_z curr_x curr_z
  cccLoop movement_segment segments 0 CollisionResult.default

/-- `check_arena_bounds`: a position is valid when both coordinates'
absolute values do not exceed `arena_size - wall_collision_dist` (the
constant `1.0` from `COLLISION_CONFIG`). -/
def check_arena_bounds (x z arena_size : ℚ) : Except PhysicsError Unit :=
  let bound := arena_size - COLLISION_CONFIG.wall_collision_dist
  if |x| > bound ∨ |z| > bound then
    .error (.OutOfBounds x z arena_size)
  else
    .ok ()

/-! ### Invariants from the specification -/

/-- The `RubberState` invariant stated in the specification's data model:
rubber within `[min_rubber, max_rubber]`, non-negative malus and timer, and
a zero timer forces a zero malus. -/
def RubberInv (cfg : RubberConfig) (s : RubberState) : Prop :=
  (cfg.min_rubber : ℝ) ≤ s.rubber ∧ s.rubber ≤ (cfg.max_rubber : ℝ) ∧
  0 ≤ s.malus ∧ 0 ≤ s.malus_timer ∧ (s.malus_timer = 0 → s.malus = 0)

/-! ## Helper lemmas -/

theorem le_fclamp (x lo hi : ℝ) : lo ≤ fclamp x lo hi := le_max_left _ _

theorem fclamp_le (x : ℝ) {lo hi : ℝ} (h : lo ≤ hi) : fclamp x lo hi ≤ hi :=
  max_le h (min_le_right _ _)

theorem fclamp_eq_self {x lo hi : ℝ} (hlo : lo ≤ x) (hhi : x ≤ hi) :
    fclamp x lo hi = x := by
  unfold fclamp
  rw [min_eq_left hhi, max_eq_right hlo]

theorem fclamp_le_of_le {x lo hi y : ℝ} (hlo : lo ≤ y) (hxy : x ≤ y) :
    fclamp x lo hi ≤ y :=
  max_le hlo (le_trans (min_le_left _ _) hxy)

theorem RUBBER_CONFIG_validate_ok : RUBBER_CONFIG.validate = .ok () := by
  norm_num [RubberConfig.validate, RUBBER_CONFIG]

set_option maxHeartbeats 1000000 in
/-- Facts extracted from a successful `RubberConfig::validate`. -/
theorem rubber_validate_facts (c : RubberConfig) (h : c.validate = .ok ()) :
    0 < c.base_rubber ∧ 0 < c.decay_rate ∧ c.decay_rate ≤ 1 ∧
    c.base_rubber < c.max_rubber ∧ 0 < c.min_rubber ∧ c.min_rubber < c.base_rubber := by
  unfold RubberConfig.validate at h
  split_ifs at h with h1 h2 h3 h4 h5 h6 h7 h8 h9 h10
  push_neg at h7 h9
  exact ⟨not_le.mp h1, h7.1, h7.2, not_le.mp h8, h9.1, h9.2⟩

theorem distance_to_segment_squared_nonneg (px pz sx sz ex ez : ℚ) :
    0 ≤ distance_to_segment_squared px pz sx sz ex ez := by
  simp only [distance_to_segment_squared]
  split_ifs <;> exact add_nonneg (mul_self_nonneg _) (mul_self_nonneg _)

/-- The `rubber` field after `update_rubber` is always the clamped decayed
value, whatever the malus timer does. -/
theorem update_rubber_rubber (s : RubberState) (dt : ℝ) (config : Option RubberConfig) :
    (update_rubber s dt config).rubber =
      fclamp (s.rubber * (((config.getD RUBBER_CONFIG).decay_rate : ℝ) ^ dt))
        ((config.getD RUBBER_CONFIG).min_rubber : ℝ)
        ((config.getD RUBBER_CONFIG).max_rubber : ℝ) := by
  simp only [update_rubber]
  split_ifs <;> rfl

/-- Any `some` result of `increase_rubber_for_position` is either the
unchanged state or the state with rubber replaced by a clamped increase. -/
theorem increase_rubber_shape (s : RubberState) (p t : ℕ) (s' : RubberState)
    (h : increase_rubber_for_position s p t = some s') :
    s' = s ∨ ∃ f : ℝ, s' = { s with rubber := (fclamp (s.rubber + f * 0.1)
      (RUBBER_CONFIG.min_rubber : ℝ) (RUBBER_CONFIG.max_rubber : ℝ)) } := by
  simp only [increase_rubber_for_position] at h
  split_ifs at h with hg hge
  · exact Or.inl (Option.some.inj h).symm
  · refine Or.inr ⟨1, ?_⟩
    have h' : some { s with rubber := (fclamp (s.rubber + 1 * 0.1)
        (RUBBER_CONFIG.min_rubber : ℝ) (RUBBER_CONFIG.max_rubber : ℝ)) } = some s' := h
    exact (Option.some.inj h').symm
  · rcases hu1 : u32sub p 1 with _ | a <;> rw [hu1] at h
    · exact Option.noConfusion (show (none : Option RubberState) = some s' from h)
    · rcases hu2 : u32sub t 1 with _ | b <;> rw [hu2] at h
      · exact Option.noConfusion (show (none : Option RubberState) = some s' from h)
      · refine Or.inr ⟨(a : ℝ) / (b : ℝ), ?_⟩
        have h' : some { s with rubber := (fclamp (s.rubber + (a : ℝ) / (b : ℝ) * 0.1)
            (RUBBER_CONFIG.min_rubber : ℝ) (RUBBER_CONFIG.max_rubber : ℝ)) } = some s' := h
        exact (Option.some.inj h').symm

/-- `round32` with the `q = 0` guard discharged and the `let` chain spelled
out. -/
theorem round32_eval (q : ℚ) (hq : ¬ q = 0) :
    round32 q =
      (if q < 0 then -1 else 1) *
        (((if |q| * 2 ^ (23 - ilog2 |q|) - (⌊|q| * 2 ^ (23 - ilog2 |q|)⌋ : ℚ) < 1 / 2 then
            ⌊|q| * 2 ^ (23 - ilog2 |q|)⌋
          else if 1 / 2 < |q| * 2 ^ (23 - ilog2 |q|) - (⌊|q| * 2 ^ (23 - ilog2 |q|)⌋ : ℚ) then
            ⌊|q| * 2 ^ (23 - ilog2 |q|)⌋ + 1
          else if ⌊|q| * 2 ^ (23 - ilog2 |q|)⌋ % 2 = 0 then ⌊|q| * 2 ^ (23 - ilog2 |q|)⌋
          else ⌊|q| * 2 ^ (23 - ilog2 |q|)⌋ + 1) : ℤ) : ℚ) * 2 ^ (ilog2 |q| - 23) := by
  rw [round32, if_neg hq]

theorem flit_one : flit 1.0 = 1 := by
  have hlog : ilog2 (1 : ℚ) = 0 := by rw [ilog2, ilog2Aux]; norm_num
  rw [flit, show (1.0 : ℚ) = 1 by norm_num, round32_eval _ (by norm_num), abs_one, hlog]
  norm_num

theorem flit_1_1 : flit 1.1 = 9227469 / 8388608 := by
  have habs : |(1.1 : ℚ)| = 1.1 := abs_of_pos (by norm_num)
  have hlog : ilog2 (1.1 : ℚ) = 0 := by rw [ilog2, ilog2Aux]; norm_num
  rw [flit, round32_eval _ (by norm_num), habs, hlog]
  norm_num

theorem flit_1_5 : flit 1.5 = 3 / 2 := by
  have habs : |(1.5 : ℚ)| = 1.5 := abs_of_pos (by norm_num)
  have hlog : ilog2 (1.5 : ℚ) = 0 := by rw [ilog2, ilog2Aux]; norm_num
  rw [flit, round32_eval _ (by norm_num), habs, hlog]
  norm_num

theorem flit_1_61 : flit 1.61 = 13505659 / 8388608 := by
  have habs : |(1.61 : ℚ)| = 1.61 := abs_of_pos (by norm_num)
  have hlog : ilog2 (1.61 : ℚ) = 0 := by rw [ilog2, ilog2Aux]; norm_num
  rw [flit, round32_eval _ (by norm_num), habs, hlog]
  norm_num

theorem flit_0_1 : flit 0.1 = 13421773 / 134217728 := by
  have habs : |(0.1 : ℚ)| = 0.1 := abs_of_pos (by norm_num)
  have hlog : ilog2 (0.1 : ℚ) = -4 := by
    rw [ilog2]
    rw [ilog2Aux]; norm_num
    rw [ilog2Aux]; norm_num
    rw [ilog2Aux]; norm_num
    rw [ilog2Aux]; norm_num
    rw [ilog2Aux]; norm_num
  rw [flit, round32_eval _ (by norm_num), habs, hlog]
  norm_num

theorem EPS32_val : EPS32 = 10737418 / 1073741824 := by
  have habs : |(0.01 : ℚ)| = 0.01 := abs_of_pos (by norm_num)
  have hlog : ilog2 (0.01 : ℚ) = -7 := by
    rw [ilog2]
    rw [ilog2Aux]; norm_num
    rw [ilog2Aux]; norm_num
    rw [ilog2Aux]; norm_num
    rw [ilog2Aux]; norm_num
    rw [ilog2Aux]; norm_num
    rw [ilog2Aux]; norm_num
    rw [ilog2Aux]; norm_num
    rw [ilog2Aux]; norm_num
  rw [EPS32, flit, round32_eval _ (by norm_num), habs, hlog]
  norm_num

theorem fsub32_boundary_ok : fsub32 1 (9227469 / 8388608) = -(838861 / 8388608) := by
  have hdiff : (1 : ℚ) - 9227469 / 8388608 = -(838861 / 8388608) := by norm_num
  have habs : |(-(838861 / 8388608) : ℚ)| = 838861 / 8388608 := by
    rw [abs_neg]; exact abs_of_pos (by norm_num)
  have hlog : ilog2 (838861 / 8388608 : ℚ) = -4 := by
    rw [ilog2]
    rw [ilog2Aux]; norm_num
    rw [ilog2Aux]; norm_num
    rw [ilog2Aux]; norm_num
    rw [ilog2Aux]; norm_num
    rw [ilog2Aux]; norm_num
  rw [fsub32, hdiff, round32_eval _ (by norm_num), habs, hlog]
  norm_num

theorem fsub32_boundary_err : fsub32 (3 / 2) (13505659 / 8388608) = -(922747 / 8388608) := by
  have hdiff : (3 / 2 : ℚ) - 13505659 / 8388608 = -(922747 / 8388608) := by norm_num
  have habs : |(-(922747 / 8388608) : ℚ)| = 922747 / 8388608 := by
    rw [abs_neg]; exact abs_of_pos (by norm_num)
  have hlog : ilog2 (922747 / 8388608 : ℚ) = -4 := by
    rw [ilog2]
    rw [ilog2Aux]; norm_num
    rw [ilog2Aux]; norm_num
    rw [ilog2Aux]; norm_num
    rw [ilog2Aux]; norm_num
    rw [ilog2Aux]; norm_num
  rw [fsub32, hdiff, round32_eval _ (by norm_num), habs, hlog]
  norm_num

theorem fadd32_tolerance : fadd32 (13421773 / 134217728) (10737418 / 1073741824) =
    7381975 / 67108864 := by
  have hsum : (13421773 / 134217728 : ℚ) + 10737418 / 1073741824 =
      59055801 / 536870912 := by norm_num
  have habs : |(59055801 / 536870912 : ℚ)| = 59055801 / 536870912 :=
    abs_of_pos (by norm_num)
  have hlog : ilog2 (59055801 / 536870912 : ℚ) = -4 := by
    rw [ilog2]
    rw [ilog2Aux]; norm_num
    rw [ilog2Aux]; norm_num
    rw [ilog2Aux]; norm_num
    rw [ilog2Aux]; norm_num
    rw [ilog2Aux]; norm_num
  rw [fadd32, hsum, round32_eval _ (by norm_num), habs, hlog]
  norm_num

/-! ## Claims -/

/-- C2: `validate_rubber_usage` fails with a `RubberMismatch` carrying its
three inputs exactly when `|client - server| > tolerance + EPS` in the
program's `f32` arithmetic (`EPS = 0.01`); in particular
`validate_rubber_usage(1.0, 1.1, 0.1)` succeeds (boundary inclusive) and
`validate_rubber_usage(1.5, 1.61, 0.1)` fails (just over tolerance). -/
theorem validate_rubber_usage_iff_and_boundary :
    (∀ client server tolerance : ℚ,
      validate_rubber_usage client server tolerance =
        .error (.RubberMismatch client server tolerance) ↔
      fadd32 tolerance EPS32 < fabs32 (fsub32 client server)) ∧
    validate_rubber_usage (flit 1.0) (flit 1.1) (flit 0.1) = .ok () ∧
    validate_rubber_usage (flit 1.5) (flit 1.61) (flit 0.1) =
      .error (.RubberMismatch (flit 1.5) (flit 1.61) (flit 0.1)) := by
  refine ⟨?_, ?_, ?_⟩
  · intro c s t
    simp only [validate_rubber_usage]
    split_ifs with h
    · exact iff_of_true rfl h
    · refine iff_of_false ?_ h
      intro he
      simp at he
  · rw [flit_one, flit_1_1, flit_0_1]
    simp only [validate_rubber_usage]
    rw [fsub32_boundary_ok, EPS32_val, fadd32_tolerance]
    rw [show fabs32 (-(838861 / 8388608) : ℚ) = 838861 / 8388608 from by
      rw [fabs32, abs_neg]; exact abs_of_pos (by norm_num)]
    rw [if_neg (by norm_num)]
  · rw [flit_1_5, flit_1_61, flit_0_1]
    simp only [validate_rubber_usage]
    rw [fsub32_boundary_err, EPS32_val, fadd32_tolerance]
    rw [show fabs32 (-(922747 / 8388608) : ℚ) = 922747 / 8388608 from by
      rw [fabs32, abs_neg]; exact abs_of_pos (by norm_num)]
    rw [if_pos (by norm_num)]

/-- C7: `check_arena_bounds(x, z, arena_size)` succeeds iff both `|x|` and
`|z|` are at most `arena_size - wall_collision_dist` with
`wall_collision_dist = 1.0`, the boundary itself being valid; in particular
`check_arena_bounds(98, 50, 100)` succeeds and
`check_arena_bounds(150, 50, 100)` returns an `OutOfBounds` error. -/
theorem check_arena_bounds_ok_iff :
    (∀ x z arena_size : ℚ,
      check_arena_bounds x z arena_size = .ok () ↔
        (|x| ≤ arena_size - 1 ∧ |z| ≤ arena_size - 1)) ∧
    check_arena_bounds 98 50 100 = .ok () ∧
    check_arena_bounds 150 50 100 = .error (.OutOfBounds 150 50 100) := by
  have hw : COLLISION_CONFIG.wall_collision_dist = 1 := by norm_num [COLLISION_CONFIG]
  refine ⟨fun x z a => ?_, ?_, ?_⟩
  · simp only [check_arena_bounds, hw]
    split_ifs with h
    · constructor
      · intro he
        simp at he
      · intro hc
        rcases h with h | h
        · exact absurd hc.1 (not_le.mpr h)
        · exact absurd hc.2 (not_le.mpr h)
    · push_neg at h
      simp [h.1, h.2]
  · simp only [check_arena_bounds, hw]
    rw [if_neg]
    push_neg
    constructor <;> rw [abs_of_nonneg (by norm_num)] <;> norm_num
  · simp only [check_arena_bounds, hw]
    rw [if_pos]
    left
    rw [abs_of_nonneg (by norm_num)]
    norm_num

/-- C8: the `competitive` and `casual` presets both pass
`FullPhysicsConfig::validate` (physics, then collision, then rubber,
short-circuiting on the first failure). -/
theorem presets_validate_ok :
    FullPhysicsConfig.competitive.validate = .ok () ∧
    FullPhysicsConfig.casual.validate = .ok () := by
  constructor <;>
    norm_num [FullPhysicsConfig.validate, FullPhysicsConfig.competitive,
      FullPhysicsConfig.casual, PhysicsConfig.validate, CollisionConfig.validate,
      RubberConfig.validate, PI_F32]

/-- C9: `calculate_position_bonus` is total exactly on
`position ≤ total_players` together with the early-return zero cases; for
`total_players ≥ 1` and `position > total_players` the embedded unchecked
`u32` subtraction underflows, so the error branch is reachable. -/
theorem calculate_position_bonus_totality_and_underflow :
    (∀ (c : RubberConfig) (position total_players : ℕ),
      (position ≤ total_players ∨ position = 0 ∨ total_players = 0) →
      (c.calculate_position_bonus position total_players).isSome = true) ∧
    (∀ (c : RubberConfig) (position total_players : ℕ),
      1 ≤ total_players → total_players < position →
      c.calculate_position_bonus position total_players = none) := by
  constructor
  · intro c p t h
    simp only [RubberConfig.calculate_position_bonus, u32sub]
    by_cases h0 : t = 0 ∨ p = 0
    · rw [if_pos h0]
      rfl
    · rw [if_neg h0]
      push_neg at h0
      have hpt : p ≤ t := by
        rcases h with h | h | h
        · exact h
        · exact absurd h h0.2
        · exact absurd h h0.1
      rw [if_pos hpt]
      rfl
  · intro c p t ht hlt
    simp only [RubberConfig.calculate_position_bonus, u32sub]
    rw [if_neg (by omega : ¬(t = 0 ∨ p = 0))]
    rw [if_neg (by omega : ¬ p ≤ t)]

/-- C9 witness: at `position = 2, total_players = 6` the bonus is defined,
and at `position = 3, total_players = 2` the `u32` subtraction underflows. -/
theorem calculate_position_bonus_totality_and_underflow_witness :
    (RUBBER_CONFIG.calculate_position_bonus 2 6).isSome = true ∧
    RUBBER_CONFIG.calculate_position_bonus 3 2 = none :=
  ⟨calculate_position_bonus_totality_and_underflow.1 RUBBER_CONFIG 2 6 (by omega),
   calculate_position_bonus_totality_and_underflow.2 RUBBER_CONFIG 3 2 (by omega) (by omega)⟩

/-- C10: for `1 ≤ position ≤ total_players`, `calculate_position_bonus`
returns `(total_players - position) / total_players * 0.1`: maximal at first
place and exactly `0` at last place — the opposite ordering of
`increase_rubber_for_position`, where first place receives position factor
`0` (rubber unchanged) and last place the full factor `1`. -/
theorem position_bonus_formula_and_opposite_ordering
    (c : RubberConfig) (s : RubberState) (p t : ℕ)
    (hp : 1 ≤ p) (hpt : p ≤ t) (ht : 2 ≤ t)
    (hlo : (RUBBER_CONFIG.min_rubber : ℝ) ≤ s.rubber)
    (hhi : s.rubber ≤ (RUBBER_CONFIG.max_rubber : ℝ)) :
    c.calculate_position_bonus p t = some (((t - p : ℕ) : ℚ) / (t : ℚ) * 0.1) ∧
    c.calculate_position_bonus t t = some 0 ∧
    c.calculate_position_bonus 1 t = some (((t - 1 : ℕ) : ℚ) / (t : ℚ) * 0.1) ∧
    ((t - p : ℕ) : ℚ) / (t : ℚ) * 0.1 ≤ ((t - 1 : ℕ) : ℚ) / (t : ℚ) * 0.1 ∧
    (∃ s1, increase_rubber_for_position s 1 t = some s1 ∧ s1.rubber = s.rubber) ∧
    (∃ s2, increase_rubber_for_position s t t = some s2 ∧
      s2.rubber = fclamp (s.rubber + 1 * 0.1)
        (RUBBER_CONFIG.min_rubber : ℝ) (RUBBER_CONFIG.max_rubber : ℝ)) := by
  have hformula : ∀ q : ℕ, 1 ≤ q → q ≤ t →
      c.calculate_position_bonus q t = some (((t - q : ℕ) : ℚ) / (t : ℚ) * 0.1) := by
    intro q hq hqt
    simp only [RubberConfig.calculate_position_bonus, u32sub]
    rw [if_neg (by omega : ¬(t = 0 ∨ q = 0)), if_pos (by omega : q ≤ t)]
  have h11 : u32sub 1 1 = some 0 := by unfold u32sub; rw [if_pos (le_refl 1)]
  have ht1 : u32sub t 1 = some (t - 1) := by
    unfold u32sub; rw [if_pos (by omega : 1 ≤ t)]
  refine ⟨hformula p hp hpt, ?_, hformula 1 (by omega) (by omega), ?_, ?_, ?_⟩
  · rw [hformula t (by omega) (by omega)]
    norm_num
  · have hcast : ((t - p : ℕ) : ℚ) ≤ ((t - 1 : ℕ) : ℚ) := by
      exact_mod_cast Nat.sub_le_sub_left hp t
    have htpos : (0 : ℚ) < (t : ℚ) := by exact_mod_cast (by omega : 0 < t)
    exact mul_le_mul_of_nonneg_right ((div_le_div_iff_of_pos_right htpos).mpr hcast)
      (by norm_num)
  · refine ⟨{ s with rubber := (fclamp (s.rubber + ((0 : ℕ) : ℝ) / (((t - 1 : ℕ)) : ℝ) * 0.1)
      (RUBBER_CONFIG.min_rubber : ℝ) (RUBBER_CONFIG.max_rubber : ℝ)) }, ?_, ?_⟩
    · simp only [increase_rubber_for_position]
      rw [if_neg (by omega : ¬(t = 0 ∨ (1 : ℕ) = 0)), if_neg (by omega : ¬(1 ≥ t))]
      rw [h11, ht1]
    · simp only [Nat.cast_zero, zero_div, zero_mul, add_zero]
      exact fclamp_eq_self hlo hhi
  · refine ⟨{ s with rubber := (fclamp (s.rubber + 1 * 0.1)
      (RUBBER_CONFIG.min_rubber : ℝ) (RUBBER_CONFIG.max_rubber : ℝ)) }, ?_, rfl⟩
    simp only [increase_rubber_for_position]
    rw [if_neg (by omega : ¬(t = 0 ∨ t = 0)), if_pos (le_refl t)]

/-- C10 witness: the formula and orderings at `position = 1`,
`total_players = 6`, starting from the default rubber state. -/
theorem position_bonus_formula_and_opposite_ordering_witness :
    RUBBER_CONFIG.calculate_position_bonus 1 6 = some (((5 : ℕ) : ℚ) / (6 : ℚ) * 0.1) ∧
    RUBBER_CONFIG.calculate_position_bonus 6 6 = some 0 ∧
    RUBBER_CONFIG.calculate_position_bonus 1 6 = some (((5 : ℕ) : ℚ) / (6 : ℚ) * 0.1) ∧
    ((5 : ℕ) : ℚ) / (6 : ℚ) * 0.1 ≤ ((5 : ℕ) : ℚ) / (6 : ℚ) * 0.1 ∧
    (∃ s1, increase_rubber_for_position ⟨"p1", 1, 0, 0⟩ 1 6 = some s1 ∧
      s1.rubber = (⟨"p1", 1, 0, 0⟩ : RubberState).rubber) ∧
    (∃ s2, increase_rubber_for_position ⟨"p1", 1, 0, 0⟩ 6 6 = some s2 ∧
      s2.rubber = fclamp ((⟨"p1", 1, 0, 0⟩ : RubberState).rubber + 1 * 0.1)
        (RUBBER_CONFIG.min_rubber : ℝ) (RUBBER_CONFIG.max_rubber : ℝ)) :=
  position_bonus_formula_and_opposite_ordering RUBBER_CONFIG ⟨"p1", 1, 0, 0⟩ 1 6
    (le_refl 1) (by omega) (by omega)
    (by norm_num [RUBBER_CONFIG]) (by norm_num [RUBBER_CONFIG])

/-- C4: starting from a state satisfying the `RubberState` invariants
(rubber within bounds, non-negative malus and timer, zero timer forces zero
malus), each of `update_rubber` (with `dt ≥ 0` and a validated config),
`apply_malus` (any duration and factor) and `increase_rubber_for_position`
(any position and player count) yields a state satisfying them again. -/
theorem rubber_ops_preserve_invariants
    (s : RubberState) (dt duration factor : ℝ) (config : Option RubberConfig)
    (position total_players : ℕ) :
    (RubberInv (config.getD RUBBER_CONFIG) s → 0 ≤ dt →
      (config.getD RUBBER_CONFIG).validate = .ok () →
      RubberInv (config.getD RUBBER_CONFIG) (update_rubber s dt config)) ∧
    (RubberInv RUBBER_CONFIG s →
      RubberInv RUBBER_CONFIG (apply_malus s duration factor)) ∧
    (RubberInv RUBBER_CONFIG s → ∀ s',
      increase_rubber_for_position s position total_players = some s' →
      RubberInv RUBBER_CONFIG s') := by
  have hRCminmax : (RUBBER_CONFIG.min_rubber : ℝ) ≤ (RUBBER_CONFIG.max_rubber : ℝ) := by
    norm_num [RUBBER_CONFIG]
  have hRCmin0 : (0 : ℝ) ≤ (RUBBER_CONFIG.min_rubber : ℝ) := by
    norm_num [RUBBER_CONFIG]
  refine ⟨?_, ?_, ?_⟩
  · intro hInv hdt hval
    obtain ⟨hbase, hd0, hd1, hbm, hm0, hmb⟩ := rubber_validate_facts _ hval
    obtain ⟨h1, h2, h3, h4, h5⟩ := hInv
    have hminmax : ((config.getD RUBBER_CONFIG).min_rubber : ℝ) ≤
        ((config.getD RUBBER_CONFIG).max_rubber : ℝ) := by
      exact_mod_cast (lt_trans hmb hbm).le
    simp only [RubberInv, update_rubber]
    split_ifs with ht1 ht2
    · exact ⟨le_fclamp _ _ _, fclamp_le _ hminmax, le_refl 0, le_refl 0, fun _ => rfl⟩
    · refine ⟨le_fclamp _ _ _, fclamp_le _ hminmax, h3, (not_le.mp ht2).le, ?_⟩
      intro h0
      exact absurd h0 (ne_of_gt (not_le.mp ht2))
    · exact ⟨le_fclamp _ _ _, fclamp_le _ hminmax, h3, h4, h5⟩
  · intro hInv
    obtain ⟨h1, h2, h3, h4, h5⟩ := hInv
    have hrub0 : 0 ≤ s.rubber := le_trans hRCmin0 h1
    have hdur : (0 : ℝ) < max duration (RUBBER_CONFIG.malus_duration : ℝ) :=
      lt_of_lt_of_le (by norm_num [RUBBER_CONFIG]) (le_max_right _ _)
    simp only [RubberInv, apply_malus]
    refine ⟨h1, h2, ?_, hdur.le, ?_⟩
    · exact mul_nonneg (mul_nonneg hrub0 (le_fclamp _ _ _)) (by norm_num [RUBBER_CONFIG])
    · intro h0
      exact absurd h0 (ne_of_gt hdur)
  · intro hInv s' hs'
    obtain ⟨h1, h2, h3, h4, h5⟩ := hInv
    rcases increase_rubber_shape s position total_players s' hs' with rfl | ⟨f, rfl⟩
    · exact ⟨h1, h2, h3, h4, h5⟩
    · exact ⟨le_fclamp _ _ _, fclamp_le _ hRCminmax, h3, h4, h5⟩

/-- C4 witness: the three operations applied to the default-rubber state
`⟨"p1", 1, 0, 0⟩` with `dt = 0`, duration `1`, factor `1/2`, position `1` of
`2` players. -/
theorem rubber_ops_preserve_invariants_witness :
    RubberInv RUBBER_CONFIG (update_rubber ⟨"p1", 1, 0, 0⟩ 0 none) ∧
    RubberInv RUBBER_CONFIG (apply_malus ⟨"p1", 1, 0, 0⟩ 1 (1/2)) ∧
    (∀ s', increase_rubber_for_position ⟨"p1", 1, 0, 0⟩ 1 2 = some s' →
      RubberInv RUBBER_CONFIG s') := by
  have hInv : RubberInv RUBBER_CONFIG ⟨"p1", 1, 0, 0⟩ := by
    refine ⟨by norm_num [RUBBER_CONFIG], by norm_num [RUBBER_CONFIG], le_refl 0,
      le_refl 0, fun _ => rfl⟩
  obtain ⟨ha, hb, hc⟩ :=
    rubber_ops_preserve_invariants ⟨"p1", 1, 0, 0⟩ 0 1 (1/2) none 1 2
  exact ⟨ha hInv (le_refl 0) RUBBER_CONFIG_validate_ok, hb hInv, hc hInv⟩

/-- C5: for a state whose rubber lies within the validated config's
`[min_rubber, max_rubber]` and any `dt ≥ 0`, `update_rubber` (default or any
validated config, hence `decay_rate ∈ (0,1]`) produces a rubber value that
does not exceed the previous one and stays within the bounds. -/
theorem update_rubber_monotone_within_bounds
    (s : RubberState) (dt : ℝ) (config : Option RubberConfig)
    (hlo : ((config.getD RUBBER_CONFIG).min_rubber : ℝ) ≤ s.rubber)
    (_hhi : s.rubber ≤ ((config.getD RUBBER_CONFIG).max_rubber : ℝ))
    (hdt : 0 ≤ dt)
    (hval : (config.getD RUBBER_CONFIG).validate = .ok ()) :
    (update_rubber s dt config).rubber ≤ s.rubber ∧
    ((config.getD RUBBER_CONFIG).min_rubber : ℝ) ≤ (update_rubber s dt config).rubber ∧
    (update_rubber s dt config).rubber ≤ ((config.getD RUBBER_CONFIG).max_rubber : ℝ) := by
  obtain ⟨hbase, hd0, hd1, hbm, hm0, hmb⟩ := rubber_validate_facts _ hval
  have hminmax : ((config.getD RUBBER_CONFIG).min_rubber : ℝ) ≤
      ((config.getD RUBBER_CONFIG).max_rubber : ℝ) := by
    exact_mod_cast (lt_trans hmb hbm).le
  have hmin0 : (0 : ℝ) ≤ ((config.getD RUBBER_CONFIG).min_rubber : ℝ) := by
    exact_mod_cast hm0.le
  have hrub0 : 0 ≤ s.rubber := le_trans hmin0 hlo
  have hpow : (((config.getD RUBBER_CONFIG).decay_rate : ℝ)) ^ dt ≤ 1 :=
    Real.rpow_le_one (by exact_mod_cast hd0.le) (by exact_mod_cast hd1) hdt
  have hmul : s.rubber * (((config.getD RUBBER_CONFIG).decay_rate : ℝ)) ^ dt ≤ s.rubber :=
    mul_le_of_le_one_right hrub0 hpow
  rw [update_rubber_rubber]
  exact ⟨fclamp_le_of_le hlo hmul, le_fclamp _ _ _, fclamp_le _ hminmax⟩

/-- Evaluation of `distance_to_segment` at a point `1/200` away from a
horizontal segment. -/
theorem distance_to_segment_example :
    distance_to_segment 5 (1 / 200) 0 0 10 0 = 1 / 200 := by
  have hdsq : distance_to_segment_squared 5 (1 / 200) 0 0 10 0 = 1 / 40000 := by
    norm_num [distance_to_segment_squared, EPS, min_def, max_def]
  rw [distance_to_segment, hdsq]
  rw [show (((1 / 40000 : ℚ) : ℝ)) = (1 / 200 : ℝ) ^ 2 by norm_num]
  exact Real.sqrt_sq (by norm_num)

/-- C6 counterexample: the point `(5, 1/200)` lies within `EPS = 0.01` of
the segment `(0,0)-(10,0)` but its distance is `1/200 ≠ 0`, so
"`distance == 0` iff within `EPS` of the segment" fails. -/
theorem distance_to_segment_eps_iff_fails :
    ¬(distance_to_segment 5 (1 / 200) 0 0 10 0 = 0 ↔
      distance_to_segment 5 (1 / 200) 0 0 10 0 ≤ ((EPS : ℚ) : ℝ)) := by
  rw [distance_to_segment_example]
  intro h
  have h2 : (1 / 200 : ℝ) = 0 := h.mpr (by norm_num [EPS])
  norm_num at h2

/-- C6 (amended): `distance_to_segment` is always non-negative, and it is
zero exactly when the squared distance computed by the code is zero (the
point lies exactly on the segment; near-degenerate segments are measured
from their start point). -/
theorem distance_to_segment_nonneg_zero_iff (px pz sx sz ex ez : ℚ) :
    0 ≤ distance_to_segment px pz sx sz ex ez ∧
    (distance_to_segment px pz sx sz ex ez = 0 ↔
      distance_to_segment_squared px pz sx sz ex ez = 0) := by
  have hnn := distance_to_segment_squared_nonneg px pz sx sz ex ez
  refine ⟨Real.sqrt_nonneg _, ?_, ?_⟩
  · intro h
    have h1 : ((distance_to_segment_squared px pz sx sz ex ez : ℚ) : ℝ) ≤ 0 :=
      Real.sqrt_eq_zero'.mp h
    have h2 : distance_to_segment_squared px pz sx sz ex ez ≤ 0 := by exact_mod_cast h1
    exact le_antisymm h2 hnn
  · intro h
    rw [distance_to_segment, h]
    simp

/-- Evaluation of `check_trail_collision` on the spec's end-to-end scenario:
alive player at `(5, 0.5)`, trail segment `(0,0)-(10,0)`, death radius `2`. -/
theorem check_trail_collision_example :
    check_trail_collision ⟨"p1", 5, 1 / 2, 0, 1, true⟩ [⟨0, 0, 10, 0⟩] 2 =
      { CollisionResult.default with
          collided := true
          distance := Real.sqrt ((1 / 4 : ℚ) : ℝ)
          segment_index := some 0 } := by
  have hdsq : distance_to_segment_squared 5 (1 / 2) 0 0 10 0 = 1 / 4 := by
    norm_num [distance_to_segment_squared, EPS, min_def, max_def]
  norm_num [check_trail_collision, ctcLoop, hdsq]

/-- C1 counterexample: `check_trail_collision` can return a result with
`collided = true` whose `collision_type` is still `None`. -/
theorem check_trail_collision_collided_without_type :
    (check_trail_collision ⟨"p1", 5, 1 / 2, 0, 1, true⟩ [⟨0, 0, 10, 0⟩] 2).collided = true ∧
    (check_trail_collision ⟨"p1", 5, 1 / 2, 0, 1, true⟩ [⟨0, 0, 10, 0⟩] 2).collision_type =
      none := by
  rw [check_trail_collision_example]
  exact ⟨rfl, rfl⟩

/-- The `continuous_collision_check` scan never turns a clean accumulator
into a collided result without attaching a collision type. -/
theorem cccLoop_collision_type (mov : Segment) :
    ∀ (segs : List Segment) (idx : ℕ) (res : CollisionResult),
      res.collided = false →
      ((cccLoop mov segs idx res).collided = true →
        ((cccLoop mov segs idx res).collision_type).isSome = true) := by
  intro segs
  induction segs with
  | nil =>
    intro idx res h0 h1
    rw [cccLoop] at h1
    rw [h0] at h1
    simp at h1
  | cons seg rest ih =>
    intro idx res h0
    by_cases h : segments_intersect mov seg
    · rw [cccLoop, if_pos h]
      intro _
      rfl
    · rw [cccLoop, if_neg h]
      exact ih (idx + 1) res h0

/-- C1 (amended): `check_trail_collision_with_owner` and
`continuous_collision_check` return `Some` collision type whenever they
report a collision; bare `check_trail_collision` does not (its caller
attributes the type), as the counterexample shows. -/
theorem collision_type_invariant_wrappers
    (player : PlayerState) (owner : String) (segments : List Segment) (death_radius : ℚ)
    (prev_x prev_z curr_x curr_z : ℚ) (segments2 : List Segment) :
    ((check_trail_collision_with_owner player owner segments death_radius).collided = true →
      ((check_trail_collision_with_owner player owner segments
        death_radius).collision_type).isSome = true) ∧
    ((continuous_collision_check prev_x prev_z curr_x curr_z segments2).collided = true →
      ((continuous_collision_check prev_x prev_z curr_x curr_z
        segments2).collision_type).isSome = true) := by
  constructor
  · simp only [check_trail_collision_with_owner]
    by_cases h : (check_trail_collision player segments death_radius).collided = true
    · rw [if_pos h]
      by_cases hid : player.id = owner
      · rw [if_pos hid]
        intro _
        rfl
      · rw [if_neg hid]
        intro _
        rfl
    · rw [if_neg h]
      intro hc
      exact absurd hc h
  · simp only [continuous_collision_check]
    exact cccLoop_collision_type _ segments2 0 CollisionResult.default rfl

/-- C1 witness: a self-trail hit through the owner wrapper and a crossing
movement through the continuous check both carry a collision type. -/
theorem collision_type_invariant_wrappers_witness :
    ((check_trail_collision_with_owner ⟨"p1", 5, 1 / 2, 0, 1, true⟩ "p2"
      [⟨0, 0, 10, 0⟩] 2).collision_type).isSome = true ∧
    ((continuous_collision_check 0 10 10 0 [⟨0, 0, 10, 10⟩]).collision_type).isSome = true := by
  have hint : segments_intersect (Segment.from_positions 0 10 10 0) ⟨0, 0, 10, 10⟩ := by
    norm_num [segments_intersect, direction, Segment.from_positions,
      Segment.startPoint, Segment.endPoint, EPS]
  obtain ⟨h1, h2⟩ := collision_type_invariant_wrappers ⟨"p1", 5, 1 / 2, 0, 1, true⟩ "p2"
    [⟨0, 0, 10, 0⟩] 2 0 10 10 0 [⟨0, 0, 10, 10⟩]
  refine ⟨h1 ?_, h2 ?_⟩
  · have hcol : (check_trail_collision ⟨"p1", 5, 1 / 2, 0, 1, true⟩
        [⟨0, 0, 10, 0⟩] 2).collided = true := by
      rw [check_trail_collision_example]
    simp only [check_trail_collision_with_owner]
    rw [if_pos hcol, if_neg (show ¬("p1" : String) = "p2" by decide)]
    exact hcol
  · simp only [continuous_collision_check, cccLoop]
    rw [if_pos hint]

/-- The scan loop of `check_trail_collision` on a clean accumulator stops at
the first segment beating the death radius, reporting its absolute index and
exact distance. -/
theorem ctcLoop_first_hit (px pz drsq : ℚ) :
    ∀ (segs : List Segment) (j idx : ℕ) (res : CollisionResult)
      (_h0 : res.collided = false) (hj : j < segs.length),
      segDistSq px pz (segs.get ⟨j, hj⟩) < drsq →
      (∀ k (hk : k < j), ¬ segDistSq px pz (segs.get ⟨k, lt_trans hk hj⟩) < drsq) →
      (ctcLoop px pz drsq segs idx res).collided = true ∧
      (ctcLoop px pz drsq segs idx res).segment_index = some (idx + j) ∧
      (ctcLoop px pz drsq segs idx res).distance =
        Real.sqrt ((segDistSq px pz (segs.get ⟨j, hj⟩) : ℚ) : ℝ) := by
  intro segs
  induction segs with
  | nil =>
    intro j idx res _h0 hj
    exact absurd hj (Nat.not_lt_zero j)
  | cons seg rest ih =>
    intro j idx res h0 hj hhit hbefore
    cases j with
    | zero =>
      have hhit' : distance_to_segment_squared px pz seg.start_x seg.start_z
          seg.end_x seg.end_z < drsq := hhit
      simp only [ctcLoop]
      rw [if_pos hhit']
      exact ⟨rfl, rfl, rfl⟩
    | succ j' =>
      have hmiss : ¬ distance_to_segment_squared px pz seg.start_x seg.start_z
          seg.end_x seg.end_z < drsq := hbefore 0 (Nat.succ_pos j')
      simp only [ctcLoop]
      rw [if_neg hmiss]
      split_ifs with hlt
      · obtain ⟨hA, hB, hC⟩ := ih j' (idx + 1)
          { res with
              distance := Real.sqrt ((distance_to_segment_squared px pz seg.start_x
                seg.start_z seg.end_x seg.end_z : ℚ) : ℝ)
              segment_index := some idx }
          h0 (Nat.lt_of_succ_lt_succ hj) hhit
          (fun k hk => hbefore (k + 1) (Nat.succ_lt_succ hk))
        refine ⟨hA, ?_, hC⟩
        rw [hB]
        congr 1
        omega
      · obtain ⟨hA, hB, hC⟩ := ih j' (idx + 1) res h0 (Nat.lt_of_succ_lt_succ hj) hhit
          (fun k hk => hbefore (k + 1) (Nat.succ_lt_succ hk))
        refine ⟨hA, ?_, hC⟩
        rw [hB]
        congr 1
        omega

/-- The scan loop of `check_trail_collision` when no segment beats the death
radius: the collided flag and collision type are untouched, and the
distance/index pair either stays at the accumulator's values (which then
bound every segment distance) or records a minimal segment distance with its
absolute index. -/
theorem ctcLoop_no_hit (px pz drsq : ℚ) :
    ∀ (segs : List Segment) (idx : ℕ) (res : CollisionResult),
      (∀ k (hk : k < segs.length), ¬ segDistSq px pz (segs.get ⟨k, hk⟩) < drsq) →
      (ctcLoop px pz drsq segs idx res).collided = res.collided ∧
      (ctcLoop px pz drsq segs idx res).collision_type = res.collision_type ∧
      (((ctcLoop px pz drsq segs idx res).distance = res.distance ∧
        (ctcLoop px pz drsq segs idx res).segment_index = res.segment_index ∧
        (∀ k (hk : k < segs.length),
          res.distance ≤ Real.sqrt ((segDistSq px pz (segs.get ⟨k, hk⟩) : ℚ) : ℝ))) ∨
      (∃ j, ∃ hj : j < segs.length,
        (ctcLoop px pz drsq segs idx res).segment_index = some (idx + j) ∧
        (ctcLoop px pz drsq segs idx res).distance =
          Real.sqrt ((segDistSq px pz (segs.get ⟨j, hj⟩) : ℚ) : ℝ) ∧
        (ctcLoop px pz drsq segs idx res).distance ≤ res.distance ∧
        (∀ k (hk : k < segs.length),
          (ctcLoop px pz drsq segs idx res).distance ≤
            Real.sqrt ((segDistSq px pz (segs.get ⟨k, hk⟩) : ℚ) : ℝ)))) := by
  intro segs
  induction segs with
  | nil =>
    intro idx res _hmiss
    refine ⟨rfl, rfl, Or.inl ⟨rfl, rfl, ?_⟩⟩
    intro k hk
    exact absurd hk (Nat.not_lt_zero k)
  | cons seg rest ih =>
    intro idx res hmiss
    have h0 : ¬ distance_to_segment_squared px pz seg.start_x seg.start_z
        seg.end_x seg.end_z < drsq := hmiss 0 (Nat.succ_pos _)
    have hrest : ∀ k (hk : k < rest.length), ¬ segDistSq px pz (rest.get ⟨k, hk⟩) < drsq :=
      fun k hk => hmiss (k + 1) (Nat.succ_lt_succ hk)
    simp only [ctcLoop]
    rw [if_neg h0]
    split_ifs with hlt
    · obtain ⟨hA, hB, hC⟩ := ih (idx + 1)
        { res with
            distance := Real.sqrt ((distance_to_segment_squared px pz seg.start_x
              seg.start_z seg.end_x seg.end_z : ℚ) : ℝ)
            segment_index := some idx } hrest
      refine ⟨hA, hB, ?_⟩
      rcases hC with ⟨hd, hi, hmin⟩ | ⟨j', hj', hi, hdist, hle, hmin⟩
      · refine Or.inr ⟨0, Nat.succ_pos _, hi, hd, ?_, ?_⟩
        · rw [hd]
          exact hlt.le
        · intro k hk
          cases k with
          | zero =>
            rw [hd]
            exact le_refl _
          | succ k' =>
            rw [hd]
            exact hmin k' (Nat.lt_of_succ_lt_succ hk)
      · refine Or.inr ⟨j' + 1, Nat.succ_lt_succ hj', ?_, hdist, ?_, ?_⟩
        · rw [hi]
          congr 1
          omega
        · exact le_trans hle hlt.le
        · intro k hk
          cases k with
          | zero => exact hle
          | succ k' => exact hmin k' (Nat.lt_of_succ_lt_succ hk)
    · obtain ⟨hA, hB, hC⟩ := ih (idx + 1) res hrest
      refine ⟨hA, hB, ?_⟩
      rcases hC with ⟨hd, hi, hmin⟩ | ⟨j', hj', hi, hdist, hle, hmin⟩
      · refine Or.inl ⟨hd, hi, ?_⟩
        intro k hk
        cases k with
        | zero => exact not_lt.mp hlt
        | succ k' => exact hmin k' (Nat.lt_of_succ_lt_succ hk)
      · refine Or.inr ⟨j' + 1, Nat.succ_lt_succ hj', ?_, hdist, hle, ?_⟩
        · rw [hi]
          congr 1
          omega
        · intro k hk
          cases k with
          | zero => exact le_trans hle (not_lt.mp hlt)
          | succ k' => exact hmin k' (Nat.lt_of_succ_lt_succ hk)

/-- C3: for an alive player, if segment `j` is the first whose squared
distance is strictly below `death_radius²` then `check_trail_collision`
reports a collision at index `j` with that segment's exact distance; if no
segment crosses the threshold the result is not collided and (for a
non-empty list) records the minimum distance over all segments and an index
achieving it.  The bound hypothesis keeps every distance below the
`f32::MAX` sentinel that initialises the minimum. -/
theorem check_trail_collision_first_hit_and_min_tracking
    (player : PlayerState) (segments : List Segment) (death_radius : ℚ)
    (halive : player.alive = true)
    (hbound : ∀ s ∈ segments, segDistSq player.x player.z s < f32_max ^ 2) :
    (∀ j (hj : j < segments.length),
      segDistSq player.x player.z (segments.get ⟨j, hj⟩) < death_radius * death_radius →
      (∀ k (hk : k < j),
        ¬ segDistSq player.x player.z (segments.get ⟨k, lt_trans hk hj⟩) <
          death_radius * death_radius) →
      (check_trail_collision player segments death_radius).collided = true ∧
      (check_trail_collision player segments death_radius).segment_index = some j ∧
      (check_trail_collision player segments death_radius).distance =
        distance_to_segment player.x player.z (segments.get ⟨j, hj⟩).start_x
          (segments.get ⟨j, hj⟩).start_z (segments.get ⟨j, hj⟩).end_x
          (segments.get ⟨j, hj⟩).end_z) ∧
    ((∀ k (hk : k < segments.length),
        ¬ segDistSq player.x player.z (segments.get ⟨k, hk⟩) <
          death_radius * death_radius) →
      (check_trail_collision player segments death_radius).collided = false ∧
      (segments ≠ [] →
        ∃ j, ∃ hj : j < segments.length,
          (check_trail_collision player segments death_radius).segment_index = some j ∧
          (check_trail_collision player segments death_radius).distance =
            distance_to_segment player.x player.z (segments.get ⟨j, hj⟩).start_x
              (segments.get ⟨j, hj⟩).start_z (segments.get ⟨j, hj⟩).end_x
              (segments.get ⟨j, hj⟩).end_z ∧
          (∀ k (hk : k < segments.length),
            (check_trail_collision player segments death_radius).distance ≤
              distance_to_segment player.x player.z (segments.get ⟨k, hk⟩).start_x
                (segments.get ⟨k, hk⟩).start_z (segments.get ⟨k, hk⟩).end_x
                (segments.get ⟨k, hk⟩).end_z))) := by
  have hck : check_trail_collision player segments death_radius =
      ctcLoop player.x player.z (death_radius * death_radius) segments 0
        CollisionResult.default := by
    rw [check_trail_collision, halive]
    rfl
  have hfmax0 : (0 : ℝ) ≤ ((f32_max : ℚ) : ℝ) := by norm_num [f32_max]
  constructor
  · intro j hj hhit hbefore
    rw [hck]
    obtain ⟨hA, hB, hC⟩ := ctcLoop_first_hit player.x player.z
      (death_radius * death_radius) segments j 0 CollisionResult.default rfl hj hhit hbefore
    refine ⟨hA, ?_, hC⟩
    rw [hB]
    congr 1
    omega
  · intro hmiss
    rw [hck]
    obtain ⟨hA, _hB, hC⟩ := ctcLoop_no_hit player.x player.z
      (death_radius * death_radius) segments 0 CollisionResult.default hmiss
    refine ⟨hA, ?_⟩
    intro hne
    rcases hC with ⟨_hd, _hi, hmin⟩ | ⟨j, hj, hi, hdist, _hle, hmin⟩
    · exfalso
      have hlen : 0 < segments.length := List.length_pos.mpr hne
      have hb := hbound (segments.get ⟨0, hlen⟩) (segments.get_mem 0 hlen)
      have h1 : ((segDistSq player.x player.z (segments.get ⟨0, hlen⟩) : ℚ) : ℝ) <
          ((f32_max : ℚ) : ℝ) ^ 2 := by exact_mod_cast hb
      have h2 : Real.sqrt ((segDistSq player.x player.z (segments.get ⟨0, hlen⟩) : ℚ) : ℝ) <
          Real.sqrt (((f32_max : ℚ) : ℝ) ^ 2) :=
        Real.sqrt_lt_sqrt (by exact_mod_cast distance_to_segment_squared_nonneg _ _ _ _ _ _) h1
      rw [Real.sqrt_sq hfmax0] at h2
      exact lt_irrefl _ (lt_of_le_of_lt
        (show ((f32_max : ℚ) : ℝ) ≤ _ from hmin 0 hlen) h2)
    · refine ⟨j, hj, ?_, hdist, hmin⟩
      rw [hi]
      congr 1
      omega

/-- C3 witness: the spec's end-to-end scenario, player at `(5, 0.5)`, trail
segment `(0,0)-(10,0)`, death radius `2`: first (and only) segment hits. -/
theorem check_trail_collision_first_hit_and_min_tracking_witness :
    (check_trail_collision ⟨"p1", 5, 1 / 2, 0, 1, true⟩ [⟨0, 0, 10, 0⟩] 2).collided = true ∧
    (check_trail_collision ⟨"p1", 5, 1 / 2, 0, 1, true⟩ [⟨0, 0, 10, 0⟩] 2).segment_index =
      some 0 ∧
    (check_trail_collision ⟨"p1", 5, 1 / 2, 0, 1, true⟩ [⟨0, 0, 10, 0⟩] 2).distance =
      distance_to_segment 5 (1 / 2) 0 0 10 0 := by
  have hdsq : segDistSq 5 (1 / 2) (⟨0, 0, 10, 0⟩ : Segment) = 1 / 4 := by
    norm_num [segDistSq, distance_to_segment_squared, EPS, min_def, max_def]
  have hb : ∀ s ∈ ([⟨0, 0, 10, 0⟩] : List Segment), segDistSq 5 (1 / 2) s < f32_max ^ 2 := by
    intro s hs
    rw [List.mem_singleton] at hs
    subst hs
    rw [hdsq]
    norm_num [f32_max]
  obtain ⟨hHit, _⟩ := check_trail_collision_first_hit_and_min_tracking
    ⟨"p1", 5, 1 / 2, 0, 1, true⟩ [⟨0, 0, 10, 0⟩] 2 rfl hb
  exact hHit 0 (by norm_num)
    (show segDistSq 5 (1 / 2) (⟨0, 0, 10, 0⟩ : Segment) < 2 * 2 by rw [hdsq]; norm_num)
    (fun k hk => absurd hk (Nat.not_lt_zero k))

/-- C5 witness: at the default config with `dt = 0` and rubber `1`. -/
theorem update_rubber_monotone_within_bounds_witness :
    (update_rubber ⟨"p1", 1, 0, 0⟩ 0 none).rubber ≤ (⟨"p1", 1, 0, 0⟩ : RubberState).rubber ∧
    (((none : Option RubberConfig).getD RUBBER_CONFIG).min_rubber : ℝ) ≤
      (update_rubber ⟨"p1", 1, 0, 0⟩ 0 none).rubber ∧
    (update_rubber ⟨"p1", 1, 0, 0⟩ 0 none).rubber ≤
      (((none : Option RubberConfig).getD RUBBER_CONFIG).max_rubber : ℝ) :=
  update_rubber_monotone_within_bounds ⟨"p1", 1, 0, 0⟩ 0 none
    (by norm_num [RUBBER_CONFIG]) (by norm_num [RUBBER_CONFIG]) (le_refl 0)
    RUBBER_CONFIG_validate_ok

end CyberCycles
